import Mathlib

/-!
Verification development for the circular manufacturing system.

The definitions below are a shallow embedding of the Python sources:
time values are rationals, the per-corner dictionaries of the collision
manager become functions out of `Nat` (the meaningful keys are 1..4),
and each method becomes a pure state-passing function.
-/

set_option maxHeartbeats 1000000

/-! ## Collision arbiter (src/src/collision_manager.py) -/

/-- State of `CollisionManager`: the three per-corner dictionaries and the
minimum reuse interval (`self.min_interval`, set to 2.0 in `__init__`). -/
structure CollisionManager where
  corners_occupied : Nat → Bool
  corner_last_used : Nat → Rat
  corners_waiting_handshake : Nat → Bool
  min_interval : Rat

/-- The state built by `CollisionManager.__init__`: all corners free,
last-used times 0, nobody waiting, `min_interval = 2.0`. -/
def CollisionManager.init : CollisionManager :=
  { corners_occupied := fun _ => false
    corner_last_used := fun _ => 0
    corners_waiting_handshake := fun _ => false
    min_interval := 2 }

/-- `CollisionManager._get_adjacent_corners`: the cyclic adjacency table. -/
def get_adjacent_corners : Nat → List Nat
  | 1 => [2, 4]
  | 2 => [1, 3]
  | 3 => [2, 4]
  | 4 => [1, 3]
  | _ => []

/-- `CollisionManager.request_corner(corner_num)`: checks, in the source
order, own occupation, elapsed time since last use, then the adjacent
corners; on success reserves the corner.  Returns the boolean result
paired with the post-state. -/
def request_corner (s : CollisionManager) (now : Rat) (corner_num : Nat) :
    Bool × CollisionManager :=
  if s.corners_occupied corner_num then
    (false, s)
  else if now - s.corner_last_used corner_num < s.min_interval then
    (false, s)
  else if (get_adjacent_corners corner_num).any
      (fun adj => s.corners_occupied adj) then
    (false, s)
  else
    (true, { s with corners_occupied :=
        fun j => if j = corner_num then true else s.corners_occupied j })

/-- `CollisionManager.release_corner(corner_num)`: clears occupation and
stamps `corner_last_used` with the current time. -/
def release_corner (s : CollisionManager) (now : Rat) (corner_num : Nat) :
    CollisionManager :=
  { s with
    corners_occupied :=
      fun j => if j = corner_num then false else s.corners_occupied j
    corner_last_used :=
      fun j => if j = corner_num then now else s.corner_last_used j }

/-- `CollisionManager.set_handshake_wait(corner_num)`. -/
def set_handshake_wait (s : CollisionManager) (corner_num : Nat) :
    CollisionManager :=
  { s with corners_waiting_handshake :=
      fun j => if j = corner_num then true else s.corners_waiting_handshake j }

/-- `CollisionManager.clear_handshake_wait(corner_num)`. -/
def clear_handshake_wait (s : CollisionManager) (corner_num : Nat) :
    CollisionManager :=
  { s with corners_waiting_handshake :=
      fun j => if j = corner_num then false else s.corners_waiting_handshake j }

/-- `CollisionManager.is_conveyor_safe_to_stop(feed_motor_num)`:
motor 1 is unsafe while corner 2 waits, motor 2 while corner 4 waits. -/
def is_conveyor_safe_to_stop (s : CollisionManager) (feed_motor_num : Nat) :
    Bool :=
  if feed_motor_num = 1 then
    !(s.corners_waiting_handshake 2)
  else if feed_motor_num = 2 then
    !(s.corners_waiting_handshake 4)
  else
    true

/-- One arbiter operation, tagged with the wall-clock time at which the
time-dependent operations run. -/
inductive ArbOp where
  | request (now : Rat) (corner_num : Nat)
  | release (now : Rat) (corner_num : Nat)
  | setWait (corner_num : Nat)
  | clearWait (corner_num : Nat)

/-- Apply one arbiter operation to a manager state. -/
def applyArbOp (s : CollisionManager) : ArbOp → CollisionManager
  | .request now i => (request_corner s now i).2
  | .release now i => release_corner s now i
  | .setWait i => set_handshake_wait s i
  | .clearWait i => clear_handshake_wait s i

/-- Run a sequence of arbiter operations. -/
def runArbOps (s : CollisionManager) (ops : List ArbOp) : CollisionManager :=
  ops.foldl applyArbOp s

/-- The adjacency invariant: no corner in 1..4 is occupied at the same
time as one of its adjacent corners. -/
def adjFree (s : CollisionManager) : Prop :=
  ∀ i ∈ [1, 2, 3, 4], ∀ j ∈ get_adjacent_corners i,
    ¬(s.corners_occupied i = true ∧ s.corners_occupied j = true)

lemma adjacency_symm : ∀ a ∈ [1, 2, 3, 4], ∀ b ∈ get_adjacent_corners a,
    a ∈ get_adjacent_corners b := by decide

lemma adjacency_mem : ∀ a ∈ [1, 2, 3, 4], ∀ b ∈ get_adjacent_corners a,
    b ∈ [1, 2, 3, 4] := by decide

lemma adjacency_irrefl : ∀ a ∈ [1, 2, 3, 4], a ∉ get_adjacent_corners a := by
  decide

lemma adjFree_request (s : CollisionManager) (now : Rat) (i : Nat)
    (h : adjFree s) : adjFree (request_corner s now i).2 := by
  unfold request_corner
  split_ifs with h1 h2 h3
  · exact h
  · exact h
  · exact h
  · intro a ha b hb hab
    dsimp at hab
    obtain ⟨pa, pb⟩ := hab
    by_cases hai : a = i
    · by_cases hbi : b = i
      · rw [hai] at ha hb
        rw [hbi] at hb
        exact adjacency_irrefl i ha hb
      · rw [if_neg hbi] at pb
        apply h3
        rw [List.any_eq_true]
        refine ⟨b, ?_, pb⟩
        rw [hai] at hb
        exact hb
    · rw [if_neg hai] at pa
      by_cases hbi : b = i
      · subst hbi
        apply h3
        rw [List.any_eq_true]
        refine ⟨a, ?_, pa⟩
        exact adjacency_symm a ha b hb
      · rw [if_neg hbi] at pb
        exact h a ha b hb ⟨pa, pb⟩

lemma adjFree_release (s : CollisionManager) (now : Rat) (i : Nat)
    (h : adjFree s) : adjFree (release_corner s now i) := by
  intro a ha b hb hab
  dsimp [release_corner] at hab
  obtain ⟨pa, pb⟩ := hab
  by_cases hai : a = i
  · rw [if_pos hai] at pa
    exact Bool.false_ne_true pa
  · rw [if_neg hai] at pa
    by_cases hbi : b = i
    · rw [if_pos hbi] at pb
      exact Bool.false_ne_true pb
    · rw [if_neg hbi] at pb
      exact h a ha b hb ⟨pa, pb⟩

lemma adjFree_applyArbOp (s : CollisionManager) (op : ArbOp)
    (h : adjFree s) : adjFree (applyArbOp s op) := by
  cases op with
  | request now i => exact adjFree_request s now i h
  | release now i => exact adjFree_release s now i h
  | setWait i => exact h
  | clearWait i => exact h

lemma adjFree_runArbOps (s : CollisionManager) (ops : List ArbOp)
    (h : adjFree s) : adjFree (runArbOps s ops) := by
  induction ops generalizing s with
  | nil => exact h
  | cons op rest ih =>
      exact ih (applyArbOp s op) (adjFree_applyArbOp s op h)

/-- Claim C1: starting from the initial all-free arbiter state, after any
sequence of arbiter operations (request, release, set/clear handshake
wait) no corner and one of its adjacent corners per the cyclic adjacency
table are occupied at the same time. -/
theorem C1_arbiter_adjacency_invariant (ops : List ArbOp) :
    adjFree (runArbOps CollisionManager.init ops) := by
  apply adjFree_runArbOps
  intro a _ b _ hab
  exact Bool.false_ne_true hab.1

lemma request_corner_fail_frame (s : CollisionManager) (now : Rat) (i : Nat)
    (h : (request_corner s now i).1 = false) :
    (request_corner s now i).2 = s := by
  unfold request_corner at h ⊢
  split_ifs at h ⊢ <;> rfl

/-- Claim C2: for a corner `i` in 1..4 and any arbiter state with the
configured `min_interval = 2`, `request_corner` succeeds exactly when the
corner is free, both adjacent corners are free, and at least 2 seconds
have passed since the corner was last released; on success the corner is
marked occupied. -/
theorem C2_request_corner_characterisation (s : CollisionManager) (now : Rat)
    (i : Nat) (_hi : i ∈ [1, 2, 3, 4]) (hmin : s.min_interval = 2) :
    ((request_corner s now i).1 = true ↔
      (s.corners_occupied i = false ∧
       (∀ j ∈ get_adjacent_corners i, s.corners_occupied j = false) ∧
       2 ≤ now - s.corner_last_used i)) ∧
    ((request_corner s now i).1 = true →
      ((request_corner s now i).2).corners_occupied i = true) := by
  constructor
  · unfold request_corner
    split_ifs with h1 h2 h3
    · simp only [Bool.false_eq_true, false_iff]
      intro hc
      exact absurd hc.1 (by simp [h1])
    · simp only [Bool.false_eq_true, false_iff]
      intro hc
      rw [hmin] at h2
      exact absurd hc.2.2 (not_le.mpr h2)
    · simp only [Bool.false_eq_true, false_iff]
      intro hc
      rw [List.any_eq_true] at h3
      obtain ⟨j, hj, hocc⟩ := h3
      exact absurd (hc.2.1 j hj) (by simp [hocc])
    · simp only [true_iff]
      refine ⟨by simpa using h1, ?_, ?_⟩
      · intro j hj
        rw [List.any_eq_true] at h3
        by_contra hne
        exact h3 ⟨j, hj, by simpa using hne⟩
      · rw [hmin] at h2
        exact not_lt.mp h2
  · unfold request_corner
    split_ifs with h1 h2 h3 <;> intro hok
    · simp at hok
    · simp at hok
    · simp at hok
    · simp

theorem C2_request_corner_characterisation_witness :
    (request_corner CollisionManager.init 5 1).1 = true :=
  ((C2_request_corner_characterisation CollisionManager.init 5 1 (by decide)
      rfl).1).2 ⟨rfl, by decide, by norm_num [CollisionManager.init]⟩

/-- Claim C9: when `request_corner` returns false, the arbiter state is
completely unchanged: occupation, last-used times and handshake flags are
exactly as before the call. -/
theorem C9_request_corner_fail_no_side_effects (s : CollisionManager)
    (now : Rat) (i : Nat) (h : (request_corner s now i).1 = false) :
    (request_corner s now i).2 = s :=
  request_corner_fail_frame s now i h

theorem C9_request_corner_fail_no_side_effects_witness :
    (request_corner CollisionManager.init 0 1).2 = CollisionManager.init :=
  C9_request_corner_fail_no_side_effects CollisionManager.init 0 1 (by
    norm_num [request_corner, CollisionManager.init])

/-! ## Corner controller (src/src/corner_controller.py)

The corner FSM runs a loop dispatching on `self.state`; each handler is
embedded as a pure function.  Blocking sensor waits (`wait_for_mcp`,
`wait_for_station_entry`, `wait_for_main_conveyor_start`) and the polled
sensors are supplied per loop iteration through an environment record;
the configured durations only govern those waits and are absorbed by the
boolean outcomes.  Every call the controller makes into the collision
manager is recorded in a trace. -/

/-- The `CornerState` enum. -/
inductive CornerState where
  | IDLE
  | FINAL_APPROACH
  | READY_TO_PUSH
  | EXTENDING
  | PUSHING
  | WAITING_FOR_CONFIRMATION
  | RETRACTING
deriving DecidableEq

/-- Configuration values read by `CornerController.__init__`. -/
structure CornerConfig where
  push_speed : Rat
  conveyor_speed : Rat

/-- `self.is_fed_by_main_conveyor`: corners 1 and 3 are fed by the main
conveyors. -/
def is_fed_by_main_conveyor (corner_num : Nat) : Bool :=
  corner_num == 1 || corner_num == 3

/-- `self.feed_motor_num`: motor 1 for corner 1, motor 2 for corner 3,
none otherwise. -/
def feed_motor_num (corner_num : Nat) : Option Nat :=
  if corner_num = 1 then some 1 else if corner_num = 3 then some 2 else none

/-- Kinds of confirmation sensor in `self.confirmation_sensor`. -/
inductive ConfSensorKind where
  | station
  | main_conveyor
deriving DecidableEq

/-- `self.confirmation_sensor`: C1 waits on station 1 entry, C2 on main
conveyor 1 start, C3 on station 2 entry, C4 on main conveyor 2 start. -/
def confirmation_sensor (corner_num : Nat) :
    Option (ConfSensorKind × Nat) :=
  if corner_num = 1 then some (ConfSensorKind.station, 1)
  else if corner_num = 2 then some (ConfSensorKind.main_conveyor, 1)
  else if corner_num = 3 then some (ConfSensorKind.station, 2)
  else if corner_num = 4 then some (ConfSensorKind.main_conveyor, 2)
  else none

/-- `self.motor_num = 4 + corner_num` (motors 5..8 drive pushers 1..4). -/
def corner_motor_num (corner_num : Nat) : Nat := 4 + corner_num

/-- Sensor readings and wait outcomes observed during one iteration of
the corner control loop, plus the wall-clock time. -/
structure CornerEnv where
  now : Rat
  corner_pos : Bool
  corner_retracted : Bool
  ext_ok : Bool
  ret_ok : Bool
  confirm_ok : Bool

/-- One recorded call into the collision manager. -/
inductive ArbCall where
  | request (corner_num : Nat) (granted : Bool)
  | release (corner_num : Nat)
  | set_wait (corner_num : Nat)
  | clear_wait (corner_num : Nat)
deriving DecidableEq

/-- Corner controller system state: the FSM phase, the thread-running
flag, the shared collision manager, the motor speeds (index, speed), the
trace of arbiter calls, and the critical-log lines. -/
structure CornerSys where
  state : CornerState
  running : Bool
  mgr : CollisionManager
  motors : Nat → Rat
  calls : List ArbCall
  log : List String

/-- `motors.set_speed(m, v)`. -/
def sys_set_speed (cs : CornerSys) (m : Nat) (v : Rat) : CornerSys :=
  { cs with motors := fun j => if j = m then v else cs.motors j }

/-- `motors.stop(m)`. -/
def sys_motor_stop (cs : CornerSys) (m : Nat) : CornerSys :=
  sys_set_speed cs m 0

/-- `collision_mgr.request_corner` with trace recording. -/
def sys_request_corner (cs : CornerSys) (now : Rat) (i : Nat) :
    Bool × CornerSys :=
  let r := request_corner cs.mgr now i
  (r.1, { cs with mgr := r.2, calls := cs.calls ++ [ArbCall.request i r.1] })

/-- `collision_mgr.release_corner` with trace recording. -/
def sys_release_corner (cs : CornerSys) (now : Rat) (i : Nat) : CornerSys :=
  { cs with mgr := release_corner cs.mgr now i
            calls := cs.calls ++ [ArbCall.release i] }

/-- `collision_mgr.set_handshake_wait` with trace recording. -/
def sys_set_handshake_wait (cs : CornerSys) (i : Nat) : CornerSys :=
  { cs with mgr := set_handshake_wait cs.mgr i
            calls := cs.calls ++ [ArbCall.set_wait i] }

/-- `collision_mgr.clear_handshake_wait` with trace recording. -/
def sys_clear_handshake_wait (cs : CornerSys) (i : Nat) : CornerSys :=
  { cs with mgr := clear_handshake_wait cs.mgr i
            calls := cs.calls ++ [ArbCall.clear_wait i] }

/-- `CornerController._stop_feed_conveyor`. -/
def stop_feed_conveyor (i : Nat) (cs : CornerSys) : CornerSys :=
  if is_fed_by_main_conveyor i then
    match feed_motor_num i with
    | some m => sys_motor_stop cs m
    | none => cs
  else cs

/-- `CornerController._start_feed_conveyor`. -/
def start_feed_conveyor (cfg : CornerConfig) (i : Nat) (cs : CornerSys) :
    CornerSys :=
  if is_fed_by_main_conveyor i then
    match feed_motor_num i with
    | some m => sys_set_speed cs m cfg.conveyor_speed
    | none => cs
  else cs

/-- `CornerController._force_retract`: drive the pusher back and wait for
the retract limit switch; the motor is stopped on both outcomes. -/
def force_retract (cfg : CornerConfig) (i : Nat) (env : CornerEnv)
    (cs : CornerSys) : Bool × CornerSys :=
  let cs1 := sys_set_speed cs (corner_motor_num i) (-cfg.push_speed)
  (env.ret_ok, sys_motor_stop cs1 (corner_motor_num i))

/-- `CornerController._state_idle`. -/
def state_idle (i : Nat) (env : CornerEnv) (cs : CornerSys) : CornerSys :=
  if env.corner_pos then
    if is_fed_by_main_conveyor i then
      match feed_motor_num i with
      | some m =>
          if is_conveyor_safe_to_stop cs.mgr m then
            let cs1 := stop_feed_conveyor i cs
            { cs1 with state := CornerState.FINAL_APPROACH }
          else cs
      | none => cs
    else { cs with state := CornerState.FINAL_APPROACH }
  else cs

/-- `CornerController._state_final_approach`. -/
def state_final_approach (cs : CornerSys) : CornerSys :=
  { cs with state := CornerState.READY_TO_PUSH }

/-- `CornerController._state_ready_to_push`. -/
def state_ready_to_push (i : Nat) (env : CornerEnv) (cs : CornerSys) :
    CornerSys :=
  let r := sys_request_corner cs env.now i
  if r.1 then { r.2 with state := CornerState.EXTENDING } else r.2

/-- Second half of `CornerController._state_extending`: extend the pusher
and wait for the extend limit switch; on extend timeout the motor is
stopped, the reservation released, the feed conveyor stopped and the
thread halted. -/
def extend_pusher (cfg : CornerConfig) (i : Nat) (env : CornerEnv)
    (cs : CornerSys) : CornerSys :=
  let cs1 := sys_set_speed cs (corner_motor_num i) cfg.push_speed
  if env.ext_ok then
    let cs2 := sys_motor_stop cs1 (corner_motor_num i)
    { cs2 with state := CornerState.PUSHING }
  else
    let cs2 := sys_motor_stop cs1 (corner_motor_num i)
    let cs3 := sys_release_corner cs2 env.now i
    let cs4 := stop_feed_conveyor i cs3
    { cs4 with running := false }

/-- `CornerController._state_extending`: force a retraction first when the
pusher is not on its retracted switch, then extend (see
`extend_pusher`). -/
def state_extending (cfg : CornerConfig) (i : Nat) (env : CornerEnv)
    (cs : CornerSys) : CornerSys :=
  if !env.corner_retracted then
    let r := force_retract cfg i env cs
    if r.1 then extend_pusher cfg i env r.2
    else
      let cs2 := { r.2 with log := r.2.log ++ ["FAILED_RETRACT_STUCK"] }
      let cs3 := stop_feed_conveyor i cs2
      { cs3 with running := false }
  else extend_pusher cfg i env cs

/-- `CornerController._state_pushing`: jam check on the corner position
sensor, otherwise move on to waiting for confirmation. -/
def state_pushing (i : Nat) (env : CornerEnv) (cs : CornerSys) : CornerSys :=
  if env.corner_pos then
    let cs1 := { cs with log := cs.log ++ ["JAM_STUCK_ON_SENSOR"] }
    let cs2 := sys_clear_handshake_wait cs1 i
    { cs2 with running := false }
  else { cs with state := CornerState.WAITING_FOR_CONFIRMATION }

/-- `CornerController._state_waiting_for_confirmation`: flag the
handshake wait, then wait for the confirmation sensor; on timeout log the
jam, clear the wait flag and halt the thread without releasing. -/
def state_waiting_for_confirmation (i : Nat) (env : CornerEnv)
    (cs : CornerSys) : CornerSys :=
  let cs0 := sys_set_handshake_wait cs i
  match confirmation_sensor i with
  | none =>
      let cs1 := sys_clear_handshake_wait cs0 i
      { cs1 with running := false }
  | some _ =>
      if env.confirm_ok then { cs0 with state := CornerState.RETRACTING }
      else
        let cs1 := { cs0 with log := cs0.log ++ ["JAM_NO_CONFIRMATION"] }
        let cs2 := sys_clear_handshake_wait cs1 i
        { cs2 with running := false }

/-- `CornerController._state_retracting`: clear the handshake wait, force
the retraction; on success release the corner, return to IDLE and restart
the feed conveyor; on failure stop the feed conveyor and halt without
releasing. -/
def state_retracting (cfg : CornerConfig) (i : Nat) (env : CornerEnv)
    (cs : CornerSys) : CornerSys :=
  let cs0 := sys_clear_handshake_wait cs i
  let r := force_retract cfg i env cs0
  if r.1 then
    let cs2 := sys_release_corner r.2 env.now i
    let cs3 := { cs2 with state := CornerState.IDLE }
    start_feed_conveyor cfg i cs3
  else
    let cs2 := { r.2 with log := r.2.log ++ ["FAILED_RETRACT"] }
    let cs3 := stop_feed_conveyor i cs2
    { cs3 with running := false }

/-- One iteration of `CornerController._run`: dispatch on the current
state while the thread is running. -/
def cornerStep (cfg : CornerConfig) (i : Nat) (env : CornerEnv)
    (cs : CornerSys) : CornerSys :=
  if cs.running then
    match cs.state with
    | CornerState.IDLE => state_idle i env cs
    | CornerState.FINAL_APPROACH => state_final_approach cs
    | CornerState.READY_TO_PUSH => state_ready_to_push i env cs
    | CornerState.EXTENDING => state_extending cfg i env cs
    | CornerState.PUSHING => state_pushing i env cs
    | CornerState.WAITING_FOR_CONFIRMATION =>
        state_waiting_for_confirmation i env cs
    | CornerState.RETRACTING => state_retracting cfg i env cs
  else cs

/-- The corner controller right after `__init__` and `start()`: IDLE,
running, fresh collision manager, feed conveyor started for corners fed
by a main conveyor. -/
def cornerInit (cfg : CornerConfig) (i : Nat) : CornerSys :=
  let cs0 : CornerSys :=
    { state := CornerState.IDLE
      running := false
      mgr := CollisionManager.init
      motors := fun _ => 0
      calls := []
      log := [] }
  let cs1 := if is_fed_by_main_conveyor i then start_feed_conveyor cfg i cs0
             else cs0
  { cs1 with running := true }

/-- Run the corner control loop over a list of per-iteration
environments. -/
def cornerRun (cfg : CornerConfig) (i : Nat) (envs : List CornerEnv)
    (cs : CornerSys) : CornerSys :=
  envs.foldl (fun acc env => cornerStep cfg i env acc) cs


/-! ### Where the corner controller releases its reservation (claim C3) -/

lemma release_mem_idle (i : Nat) (env : CornerEnv) (cs : CornerSys) (j : Nat)
    (h : ArbCall.release j ∈ (state_idle i env cs).calls) :
    ArbCall.release j ∈ cs.calls := by
  rcases hfm : feed_motor_num i with _ | m <;>
    simp only [state_idle, stop_feed_conveyor, sys_motor_stop, sys_set_speed,
      hfm] at h <;>
    split_ifs at h <;> exact h

lemma release_mem_final_approach (cs : CornerSys) (j : Nat)
    (h : ArbCall.release j ∈ (state_final_approach cs).calls) :
    ArbCall.release j ∈ cs.calls := h

lemma release_mem_ready (i : Nat) (env : CornerEnv) (cs : CornerSys) (j : Nat)
    (h : ArbCall.release j ∈ (state_ready_to_push i env cs).calls) :
    ArbCall.release j ∈ cs.calls := by
  simp only [state_ready_to_push, sys_request_corner] at h
  split_ifs at h <;> simp_all

lemma release_mem_extend_pusher (cfg : CornerConfig) (i : Nat)
    (env : CornerEnv) (cs : CornerSys) (j : Nat)
    (h : ArbCall.release j ∈ (extend_pusher cfg i env cs).calls) :
    ArbCall.release j ∈ cs.calls ∨ env.ext_ok = false := by
  rcases hfm : feed_motor_num i with _ | m <;>
    simp only [extend_pusher, sys_release_corner, sys_motor_stop,
      sys_set_speed, stop_feed_conveyor, hfm] at h <;>
    split_ifs at h with hext <;> simp_all

lemma release_mem_extending (cfg : CornerConfig) (i : Nat) (env : CornerEnv)
    (cs : CornerSys) (j : Nat)
    (h : ArbCall.release j ∈ (state_extending cfg i env cs).calls) :
    ArbCall.release j ∈ cs.calls ∨ env.ext_ok = false := by
  simp only [state_extending] at h
  split_ifs at h with h1 h2
  · rcases release_mem_extend_pusher cfg i env _ j h with h3 | h3
    · left
      simpa [force_retract, sys_motor_stop, sys_set_speed] using h3
    · exact Or.inr h3
  · left
    rcases hfm : feed_motor_num i with _ | m <;>
      simp only [stop_feed_conveyor, force_retract, sys_motor_stop,
        sys_set_speed, hfm] at h <;>
      split_ifs at h <;> exact h
  · exact release_mem_extend_pusher cfg i env cs j h

lemma release_mem_pushing (i : Nat) (env : CornerEnv) (cs : CornerSys)
    (j : Nat) (h : ArbCall.release j ∈ (state_pushing i env cs).calls) :
    ArbCall.release j ∈ cs.calls := by
  simp only [state_pushing, sys_clear_handshake_wait] at h
  split_ifs at h <;> simp_all

lemma release_mem_waiting (i : Nat) (env : CornerEnv) (cs : CornerSys)
    (j : Nat)
    (h : ArbCall.release j ∈ (state_waiting_for_confirmation i env cs).calls) :
    ArbCall.release j ∈ cs.calls := by
  rcases hcf : confirmation_sensor i with _ | k <;>
    simp only [state_waiting_for_confirmation, sys_set_handshake_wait,
      sys_clear_handshake_wait, hcf] at h
  · simp_all
  · split_ifs at h <;> simp_all

lemma release_mem_retracting (cfg : CornerConfig) (i : Nat) (env : CornerEnv)
    (cs : CornerSys) (j : Nat)
    (h : ArbCall.release j ∈ (state_retracting cfg i env cs).calls) :
    ArbCall.release j ∈ cs.calls ∨ env.ret_ok = true := by
  rcases hfm : feed_motor_num i with _ | m <;>
    simp only [state_retracting, sys_clear_handshake_wait, sys_release_corner,
      force_retract, sys_motor_stop, sys_set_speed, start_feed_conveyor,
      stop_feed_conveyor, hfm] at h <;>
    split_ifs at h with h1 <;> simp_all

/-- Concrete corner configuration used by the concrete scenarios. -/
def cfgW : CornerConfig := { push_speed := 1, conveyor_speed := 1 }

/-- Iteration observing a part on the corner position sensor. -/
def envPos : CornerEnv :=
  { now := 0, corner_pos := true, corner_retracted := true, ext_ok := true,
    ret_ok := true, confirm_ok := true }

/-- Plain iteration with no part on the position sensor. -/
def envTick : CornerEnv :=
  { now := 1, corner_pos := false, corner_retracted := true, ext_ok := true,
    ret_ok := true, confirm_ok := true }

/-- Iteration at t = 10 in which a reservation request is made. -/
def envGrant : CornerEnv :=
  { now := 10, corner_pos := false, corner_retracted := true, ext_ok := true,
    ret_ok := true, confirm_ok := true }

/-- Iteration in which the extend limit switch wait times out. -/
def envExtendFail : CornerEnv :=
  { now := 11, corner_pos := false, corner_retracted := true, ext_ok := false,
    ret_ok := true, confirm_ok := true }

/-- Iteration in which the extend limit switch is reached. -/
def envExtendOk : CornerEnv :=
  { now := 11, corner_pos := false, corner_retracted := true, ext_ok := true,
    ret_ok := true, confirm_ok := true }

/-- Iteration in which the part has left the corner position sensor. -/
def envPushClear : CornerEnv :=
  { now := 12, corner_pos := false, corner_retracted := true, ext_ok := true,
    ret_ok := true, confirm_ok := true }

/-- Iteration in which the confirmation sensor wait times out. -/
def envConfirmFail : CornerEnv :=
  { now := 13, corner_pos := false, corner_retracted := true, ext_ok := true,
    ret_ok := true, confirm_ok := false }

/-- Corner 1 driven from start to the EXTENDING state. -/
def c3sys : CornerSys :=
  cornerRun cfgW 1 [envPos, envTick, envGrant] (cornerInit cfgW 1)

/-- Claim C3 counterexample: corner 1 reaches EXTENDING (not RETRACTING)
with no release recorded, and the next step — an extend-limit-switch
timeout in EXTENDING — invokes `release_corner(1)`.  So the reservation
is released from a timeout path outside RETRACTING. -/
theorem C3_counterexample_release_from_extending :
    c3sys.state = CornerState.EXTENDING ∧
    c3sys.state ≠ CornerState.RETRACTING ∧
    ArbCall.release 1 ∉ c3sys.calls ∧
    ArbCall.release 1 ∈ (cornerStep cfgW 1 envExtendFail c3sys).calls :=
  of_decide_eq_true (by with_unfolding_all rfl)

/-- Claim C3 (amended): in any step of the corner controller, a
`release_corner` call is recorded only from RETRACTING when the retract
limit switch is confirmed, or from EXTENDING when the wait for the extend
limit switch fails (extend-timeout cleanup). -/
theorem C3_release_only_from_retract_or_extend_timeout (cfg : CornerConfig)
    (i : Nat) (env : CornerEnv) (cs : CornerSys) (j : Nat)
    (hmem : ArbCall.release j ∈ (cornerStep cfg i env cs).calls) :
    ArbCall.release j ∈ cs.calls ∨
    (cs.state = CornerState.RETRACTING ∧ env.ret_ok = true) ∨
    (cs.state = CornerState.EXTENDING ∧ env.ext_ok = false) := by
  unfold cornerStep at hmem
  by_cases hr : cs.running = true
  · rw [if_pos hr] at hmem
    rcases hst : cs.state <;> rw [hst] at hmem
    · exact Or.inl (release_mem_idle i env cs j hmem)
    · exact Or.inl (release_mem_final_approach cs j hmem)
    · exact Or.inl (release_mem_ready i env cs j hmem)
    · rcases release_mem_extending cfg i env cs j hmem with h | h
      · exact Or.inl h
      · exact Or.inr (Or.inr ⟨rfl, h⟩)
    · exact Or.inl (release_mem_pushing i env cs j hmem)
    · exact Or.inl (release_mem_waiting i env cs j hmem)
    · rcases release_mem_retracting cfg i env cs j hmem with h | h
      · exact Or.inl h
      · exact Or.inr (Or.inl ⟨rfl, h⟩)
  · rw [if_neg hr] at hmem
    exact Or.inl hmem

/-- Corner 1 driven from start into the RETRACTING state. -/
def c3retr : CornerSys :=
  cornerRun cfgW 1 [envPos, envTick, envGrant, envExtendOk, envPushClear,
    envTick] (cornerInit cfgW 1)

theorem C3_release_only_from_retract_or_extend_timeout_witness :
    ArbCall.release 1 ∈ c3retr.calls ∨
    (c3retr.state = CornerState.RETRACTING ∧ envTick.ret_ok = true) ∨
    (c3retr.state = CornerState.EXTENDING ∧ envTick.ext_ok = false) :=
  C3_release_only_from_retract_or_extend_timeout cfgW 1 envTick c3retr 1
    (of_decide_eq_true (by with_unfolding_all rfl))

/-! ### Handshake-timeout jam (claim C8) -/

lemma fmn_fed {i m : Nat} (h : feed_motor_num i = some m) :
    is_fed_by_main_conveyor i = true := by
  unfold feed_motor_num at h
  split_ifs at h with h1 h2 <;> simp_all [is_fed_by_main_conveyor]

lemma fmn_ne_corner_motor {i m : Nat} (h : feed_motor_num i = some m) :
    corner_motor_num i ≠ m := by
  unfold feed_motor_num at h
  split_ifs at h with h1 h2 <;> simp_all [corner_motor_num] <;> omega

lemma request_corner_true_occupied (s : CollisionManager) (now : Rat)
    (i : Nat) (h : (request_corner s now i).1 = true) :
    ((request_corner s now i).2).corners_occupied i = true := by
  unfold request_corner at h ⊢
  split_ifs at h ⊢ <;> simp_all

/-- Reachability invariant for a single corner controller: while the
thread runs, the corner holds its reservation in the
EXTENDING/PUSHING/WAITING_FOR_CONFIRMATION/RETRACTING phases, and the
feed conveyor motor is stopped in every phase other than IDLE. -/
def cornerInv (i : Nat) (cs : CornerSys) : Prop :=
  cs.running = true →
    ((cs.state = CornerState.EXTENDING ∨ cs.state = CornerState.PUSHING ∨
      cs.state = CornerState.WAITING_FOR_CONFIRMATION ∨
      cs.state = CornerState.RETRACTING) →
        cs.mgr.corners_occupied i = true) ∧
    (cs.state ≠ CornerState.IDLE →
        ∀ m, feed_motor_num i = some m → cs.motors m = 0)

lemma cornerInv_init (cfg : CornerConfig) (i : Nat) :
    cornerInv i (cornerInit cfg i) := by
  intro _
  constructor
  · intro hst
    rcases hfed : is_fed_by_main_conveyor i <;>
      rcases hfm : feed_motor_num i with _ | m <;>
      simp_all [cornerInit, start_feed_conveyor, sys_set_speed]
  · intro hst
    rcases hfed : is_fed_by_main_conveyor i <;>
      rcases hfm : feed_motor_num i with _ | m <;>
      simp_all [cornerInit, start_feed_conveyor, sys_set_speed]

lemma cornerInv_step (cfg : CornerConfig) (i : Nat) (env : CornerEnv)
    (cs : CornerSys) (h : cornerInv i cs) :
    cornerInv i (cornerStep cfg i env cs) := by
  unfold cornerStep
  by_cases hrun : cs.running = true
  · rw [if_pos hrun]
    have hpre := h hrun
    rcases hst : cs.state with _ | _ | _ | _ | _ | _ | _
    · -- IDLE
      rw [hst] at hpre
      unfold state_idle
      rcases hfm : feed_motor_num i with _ | m <;>
        simp only [stop_feed_conveyor, sys_motor_stop, sys_set_speed, hfm] <;>
        split_ifs with h1 h2 h3
      · exact h
      · intro _
        constructor
        · intro hs
          rcases hs with hs | hs | hs | hs <;> simp at hs
        · intro _ m1 hm1
          rw [hm1] at hfm
          cases hfm
      · exact h
      · intro _
        constructor
        · intro hs
          rcases hs with hs | hs | hs | hs <;> simp at hs
        · intro _ m1 hm1
          simp only [hm1] at hfm
          injection hfm with hmm
          subst hmm
          simp [h2]
      · exact h
      · intro _
        constructor
        · intro hs
          rcases hs with hs | hs | hs | hs <;> simp at hs
        · intro _ m1 hm1
          exact absurd (fmn_fed hm1) (by simp [h2])
      · exact h
    · -- FINAL_APPROACH
      rw [hst] at hpre
      unfold state_final_approach
      intro _
      constructor
      · intro hs
        rcases hs with hs | hs | hs | hs <;> simp at hs
      · intro _ m hm
        exact hpre.2 (by simp) m hm
    · -- READY_TO_PUSH
      rw [hst] at hpre
      unfold state_ready_to_push sys_request_corner
      rcases hreq : (request_corner cs.mgr env.now i).1
      · simp only [hreq, Bool.false_eq_true, if_false]
        intro _
        constructor
        · intro hs
          rcases hs with hs | hs | hs | hs <;> rw [hst] at hs <;> simp at hs
        · intro _ m hm
          exact hpre.2 (by simp) m hm
      · simp only [hreq, if_true]
        intro _
        constructor
        · intro _
          exact request_corner_true_occupied cs.mgr env.now i hreq
        · intro _ m hm
          exact hpre.2 (by simp) m hm
    · -- EXTENDING
      rw [hst] at hpre
      have hocc : cs.mgr.corners_occupied i = true := hpre.1 (by simp)
      have hmot : ∀ m, feed_motor_num i = some m → cs.motors m = 0 :=
        hpre.2 (by simp)
      have hsucc :
          cornerInv i (extend_pusher cfg i env
            (sys_motor_stop
              (sys_set_speed cs (corner_motor_num i) (-cfg.push_speed))
              (corner_motor_num i))) ∧
          cornerInv i (extend_pusher cfg i env cs) := by
        constructor <;>
        · unfold extend_pusher
          rcases hext : env.ext_ok <;>
            simp only [hext, Bool.false_eq_true, if_false, if_true]
          · intro hfalse
            rcases hfm : feed_motor_num i with _ | m <;>
              simp [stop_feed_conveyor, sys_motor_stop, sys_set_speed,
                sys_release_corner, hfm] at hfalse
          · intro _
            constructor
            · intro _
              simpa [sys_motor_stop, sys_set_speed] using hocc
            · intro _ m hm
              have hne := fmn_ne_corner_motor hm
              have h0 := hmot m hm
              simp [sys_motor_stop, sys_set_speed, Ne.symm hne, h0]
      unfold state_extending force_retract
      rcases hretr : env.corner_retracted <;>
        rcases hrok : env.ret_ok <;>
        simp only [hretr, hrok, Bool.not_false, Bool.not_true,
          Bool.false_eq_true, if_false, if_true]
      · -- not retracted, force-retract fails: thread halted
        intro hfalse
        rcases hfm : feed_motor_num i with _ | m <;>
          simp [stop_feed_conveyor, sys_motor_stop, sys_set_speed,
            hfm] at hfalse
      · -- not retracted, force-retract succeeds
        exact hsucc.1
      · -- retracted: extend directly (ret_ok irrelevant)
        exact hsucc.2
      · exact hsucc.2
    · -- PUSHING
      rw [hst] at hpre
      unfold state_pushing
      rcases hcp : env.corner_pos <;>
        simp only [hcp, Bool.false_eq_true, if_false, if_true]
      · intro _
        constructor
        · intro _
          exact hpre.1 (by simp)
        · intro _ m hm
          exact hpre.2 (by simp) m hm
      · intro hfalse
        simp [sys_clear_handshake_wait] at hfalse
    · -- WAITING_FOR_CONFIRMATION
      rw [hst] at hpre
      unfold state_waiting_for_confirmation
      rcases hcf : confirmation_sensor i with _ | k <;> simp only [hcf]
      · intro hfalse
        simp [sys_clear_handshake_wait, sys_set_handshake_wait] at hfalse
      · rcases hok : env.confirm_ok <;>
          simp only [hok, Bool.false_eq_true, if_false, if_true]
        · intro hfalse
          simp [sys_clear_handshake_wait, sys_set_handshake_wait] at hfalse
        · intro _
          constructor
          · intro _
            have hq := hpre.1 (by simp)
            simpa [sys_set_handshake_wait, set_handshake_wait] using hq
          · intro _ m hm
            exact hpre.2 (by simp) m hm
    · -- RETRACTING
      rw [hst] at hpre
      unfold state_retracting force_retract
      rcases hrok : env.ret_ok <;>
        simp only [hrok, Bool.false_eq_true, if_false, if_true]
      · intro hfalse
        rcases hfm : feed_motor_num i with _ | m <;>
          simp [stop_feed_conveyor, sys_motor_stop, sys_set_speed,
            sys_clear_handshake_wait, hfm] at hfalse
      · intro _
        constructor
        · intro hs
          rcases hfed : is_fed_by_main_conveyor i <;>
            rcases hfm : feed_motor_num i with _ | m <;>
            simp [start_feed_conveyor, sys_set_speed, sys_release_corner,
              sys_motor_stop, sys_clear_handshake_wait, hfm, hfed] at hs
        · intro hs
          rcases hfed : is_fed_by_main_conveyor i <;>
            rcases hfm : feed_motor_num i with _ | m <;>
            simp [start_feed_conveyor, sys_set_speed, sys_release_corner,
              sys_motor_stop, sys_clear_handshake_wait, hfm, hfed] at hs
  · rw [if_neg hrun]
    exact h

lemma cornerInv_run (cfg : CornerConfig) (i : Nat) (envs : List CornerEnv)
    (cs : CornerSys) (h : cornerInv i cs) :
    cornerInv i (cornerRun cfg i envs cs) := by
  induction envs generalizing cs with
  | nil => exact h
  | cons env rest ih =>
      exact ih (cornerStep cfg i env cs) (cornerInv_step cfg i env cs h)

/-- Claim C8: when a corner with a configured confirmation sensor, in any
reachable WAITING_FOR_CONFIRMATION situation, does not observe its
confirmation sensor within the handshake timeout, the step logs the jam,
clears the handshake-wait flag, halts the thread (so no further loop
iteration changes the state), keeps the reservation (`occupied[i]` stays
true), and the feed conveyor motor (when the corner has one) is
stopped. -/
theorem C8_handshake_timeout_locks_corner (cfg : CornerConfig) (i : Nat)
    (envs : List CornerEnv) (env : CornerEnv) (cs : CornerSys)
    (hconf : (confirmation_sensor i).isSome = true)
    (hcs : cs = cornerRun cfg i envs (cornerInit cfg i))
    (hst : cs.state = CornerState.WAITING_FOR_CONFIRMATION)
    (hrun : cs.running = true)
    (hto : env.confirm_ok = false) :
    (cornerStep cfg i env cs).running = false ∧
    (cornerStep cfg i env cs).log = cs.log ++ ["JAM_NO_CONFIRMATION"] ∧
    ((cornerStep cfg i env cs).mgr).corners_waiting_handshake i = false ∧
    ((cornerStep cfg i env cs).mgr).corners_occupied i = true ∧
    (∀ m, feed_motor_num i = some m → (cornerStep cfg i env cs).motors m = 0) ∧
    (∀ env2, cornerStep cfg i env2 (cornerStep cfg i env cs) =
      cornerStep cfg i env cs) := by
  have hinv : cornerInv i cs := by
    rw [hcs]
    exact cornerInv_run cfg i envs (cornerInit cfg i) (cornerInv_init cfg i)
  have hpre := hinv hrun
  have hocc : cs.mgr.corners_occupied i = true := hpre.1 (by simp [hst])
  have hmot : ∀ m, feed_motor_num i = some m → cs.motors m = 0 :=
    hpre.2 (by simp [hst])
  rcases hcf : confirmation_sensor i with _ | k
  · rw [hcf] at hconf
    cases hconf
  · have hstep : cornerStep cfg i env cs =
        state_waiting_for_confirmation i env cs := by
      unfold cornerStep
      rw [if_pos hrun, hst]
    rw [hstep]
    unfold state_waiting_for_confirmation
    rw [hcf]
    simp only [hto, Bool.false_eq_true, if_false]
    refine ⟨by trivial, by trivial, ?_, ?_, ?_, ?_⟩
    · simp [sys_clear_handshake_wait, sys_set_handshake_wait,
        clear_handshake_wait, set_handshake_wait]
    · simpa [sys_clear_handshake_wait, sys_set_handshake_wait,
        clear_handshake_wait, set_handshake_wait] using hocc
    · intro m hm
      simpa [sys_clear_handshake_wait, sys_set_handshake_wait] using hmot m hm
    · intro env2
      unfold cornerStep
      rw [if_neg]
      simp [sys_clear_handshake_wait, sys_set_handshake_wait]

/-- Environment list driving corner 1 from start into
WAITING_FOR_CONFIRMATION. -/
def envsC8 : List CornerEnv :=
  [envPos, envTick, envGrant, envExtendOk, envPushClear]

theorem C8_handshake_timeout_locks_corner_witness :
    (cornerStep cfgW 1 envConfirmFail
      (cornerRun cfgW 1 envsC8 (cornerInit cfgW 1))).running = false :=
  (C8_handshake_timeout_locks_corner cfgW 1 envsC8 envConfirmFail
    (cornerRun cfgW 1 envsC8 (cornerInit cfgW 1))
    (of_decide_eq_true (by with_unfolding_all rfl)) rfl
    (of_decide_eq_true (by with_unfolding_all rfl))
    (of_decide_eq_true (by with_unfolding_all rfl)) rfl).1

/-! ## Activity log (src/physical_system/data_logger.py, `log_event`)

A log entry keeps the fields the callers pass; the CSV timestamp column
is wall-clock formatting and is not modelled. -/

/-- One activity record written by `DataLogger.log_event`. -/
structure LogEntry where
  part_id : Option String
  station_id : String
  activity : String
  tag : String
deriving DecidableEq

/-- Python `keyword in text` on strings (non-empty `keyword`). -/
def contains_substr (text pat : String) : Bool :=
  (text.splitOn pat).length != 1

/-- `DataLogger._infer_tag`: FINISH when the upper-cased activity contains
one of EXIT/COMPLETE/END/FINISH, START otherwise. -/
def infer_tag (activity : String) : String :=
  if ["EXIT", "COMPLETE", "END", "FINISH"].any
      (fun keyword => contains_substr activity.toUpper keyword) then
    "FINISH"
  else
    "START"

/-- `DataLogger.log_event` restricted to the CSV row it appends: the tag
is auto-inferred when the caller passes none. -/
def log_event (log : List LogEntry) (part_id : Option String)
    (station_id activity : String) (tag : Option String) : List LogEntry :=
  log ++ [{ part_id := part_id, station_id := station_id,
            activity := activity, tag := tag.getD (infer_tag activity) }]

/-! ## Station controller (src/src/station_controller.py) -/

/-- The `StationState` enum. -/
inductive StationState where
  | IDLE
  | ENTERING
  | ADVANCING_TO_PROCESS
  | PROCESSING
  | ADVANCING_TO_EXIT
  | EXITING
deriving DecidableEq

/-- A fused event dictionary as delivered by the CEP consumer. -/
structure FusedEvent where
  timestamp : Rat
  barrier_id : String
  part_id : Option String
  location_type : String
  location_id : Nat
deriving DecidableEq

/-- Station controller state: identity, configuration, FSM fields, the
activity log it has written and the motor speeds it has commanded. -/
structure Station where
  station_num : Nat
  motor_speed : Rat
  process_time : Rat
  state : StationState
  current_part : Option String
  entry_timestamp : Option Rat
  log : List LogEntry
  motors : Nat → Rat

/-- `self.station_id = f"S{station_num}"`. -/
def Station.station_id (st : Station) : String :=
  "S" ++ toString st.station_num

/-- `self.motor_num = 2 + station_num`. -/
def Station.motor_num (st : Station) : Nat := 2 + st.station_num

/-- `StationController.__init__`: IDLE, no part, station 2 runs its motor
in reverse. -/
def mkStation (station_num : Nat) (station_speed process_time : Rat) :
    Station :=
  { station_num := station_num
    motor_speed := if station_num = 1 then station_speed else -station_speed
    process_time := process_time
    state := StationState.IDLE
    current_part := none
    entry_timestamp := none
    log := []
    motors := fun _ => 0 }

/-- `motors.set_speed` as seen from a station controller. -/
def st_set_speed (st : Station) (m : Nat) (v : Rat) : Station :=
  { st with motors := fun j => if j = m then v else st.motors j }

/-- `motors.stop` as seen from a station controller. -/
def st_stop (st : Station) (m : Nat) : Station := st_set_speed st m 0

/-- `StationController._handle_idle`. -/
def station_handle_idle (st : Station) (e : FusedEvent) : Station :=
  if e.barrier_id ≠ "S" ++ toString st.station_num ++ "_ENTRY" then st
  else
    match e.part_id with
    | none =>
        { st with log := (log_event st.log (some "UNKNOWN") st.station_id
            "ERROR_NO_PART_ID" none) }
    | some p =>
        let st1 := { st with current_part := some p,
                             entry_timestamp := some e.timestamp }
        let st2 := { st1 with log := (log_event st1.log (some p)
            st1.station_id "ENTER" none) }
        let st3 := st_set_speed st2 st2.motor_num st2.motor_speed
        { st3 with state := StationState.ENTERING }

/-- `StationController._handle_entering`. -/
def station_handle_entering (st : Station) (e : FusedEvent) : Station :=
  if e.barrier_id = "S" ++ toString st.station_num ++ "_ENTRY" then st
  else if e.barrier_id = "S" ++ toString st.station_num ++ "_PROCESS" then
    let st1 := st_stop st st.motor_num
    let st2 := { st1 with log := (log_event st1.log st1.current_part
        st1.station_id "PROCESS_START" (some "START")) }
    { st2 with state := StationState.PROCESSING }
  else st

/-- `StationController._handle_processing` (jitter and warnings only). -/
def station_handle_processing (st : Station) (_e : FusedEvent) : Station :=
  st

/-- `StationController._processing_complete` (process timer callback). -/
def station_processing_complete (st : Station) : Station :=
  let st1 := { st with log := (log_event st.log st.current_part
      st.station_id "PROCESS_END" (some "FINISH")) }
  let st2 := st_set_speed st1 st1.motor_num st1.motor_speed
  { st2 with state := StationState.ADVANCING_TO_EXIT }

/-- `StationController._handle_advancing_to_exit`. -/
def station_handle_advancing_to_exit (st : Station) (e : FusedEvent) :
    Station :=
  if e.barrier_id = "S" ++ toString st.station_num ++ "_EXIT" then
    let st1 := st_stop st st.motor_num
    let st2 := st_set_speed st1 st1.motor_num st1.motor_speed
    { st2 with state := StationState.EXITING }
  else st

/-- `StationController._handle_exiting` (ignores the falling edge). -/
def station_handle_exiting (st : Station) (_e : FusedEvent) : Station :=
  st

/-- `StationController._exit_complete` (exit timer callback; the
timestamp argument only feeds the cycle-time info log).  The EXIT record
is only written when `self.current_part` is truthy, so an empty-string
part id writes nothing. -/
def station_exit_complete (st : Station) (_exit_timestamp : Rat) : Station :=
  let st1 := st_stop st st.motor_num
  let st2 :=
    match st1.current_part with
    | some p =>
        if p = "" then st1
        else { st1 with log := (log_event st1.log (some p) st1.station_id
            "EXIT" none) }
    | none => st1
  { st2 with current_part := none, entry_timestamp := none,
             state := StationState.IDLE }

/-- `StationController.process_event`: dispatch on the current state
(the ADVANCING_TO_PROCESS handler is `pass`). -/
def station_process_event (st : Station) (e : FusedEvent) : Station :=
  match st.state with
  | StationState.IDLE => station_handle_idle st e
  | StationState.ENTERING => station_handle_entering st e
  | StationState.ADVANCING_TO_PROCESS => st
  | StationState.PROCESSING => station_handle_processing st e
  | StationState.ADVANCING_TO_EXIT => station_handle_advancing_to_exit st e
  | StationState.EXITING => station_handle_exiting st e

/-- The round trip of claim C7: entry event carrying part `p`, process
event, process timer, exit event, exit timer (armed with the exit
event's timestamp). -/
def stationRoundTrip (x : Nat) (station_speed process_time : Rat)
    (p : String) (t1 t2 t3 : Rat) : Station :=
  let s0 := mkStation x station_speed process_time
  let s1 := station_process_event s0
    { timestamp := t1, barrier_id := "S" ++ toString x ++ "_ENTRY",
      part_id := some p, location_type := "station", location_id := x }
  let s2 := station_process_event s1
    { timestamp := t2, barrier_id := "S" ++ toString x ++ "_PROCESS",
      part_id := none, location_type := "station", location_id := x }
  let s3 := station_processing_complete s2
  let s4 := station_process_event s3
    { timestamp := t3, barrier_id := "S" ++ toString x ++ "_EXIT",
      part_id := none, location_type := "station", location_id := x }
  station_exit_complete s4 t3

/-- Claim C7 counterexample: with the empty-string part id (a legal tag
value), the round trip produces only ENTER, PROCESS_START and
PROCESS_END — the EXIT record is skipped because `_exit_complete` guards
the log write by Python truthiness of `current_part`. -/
theorem C7_counterexample_empty_part_id :
    (stationRoundTrip 1 1 5 "" 0 1 2).log.map
        (fun l => (l.activity, l.part_id)) =
      [("ENTER", some ""), ("PROCESS_START", some ""),
       ("PROCESS_END", some "")] ∧
    (stationRoundTrip 1 1 5 "" 0 1 2).log.map
        (fun l => (l.activity, l.part_id)) ≠
      [("ENTER", some ""), ("PROCESS_START", some ""),
       ("PROCESS_END", some ""), ("EXIT", some "")] :=
  of_decide_eq_true (by with_unfolding_all rfl)

/-- Claim C7 (amended): for station 1 or 2 and any part id other than
the empty string, the event sequence ENTRY(p), PROCESS, process timer,
EXIT, exit timer from IDLE logs exactly ENTER, PROCESS_START,
PROCESS_END, EXIT for `p` in that order and returns the station to IDLE
with `current_part` cleared. -/
theorem C7_station_round_trip (x : Nat) (hx : x ∈ [1, 2])
    (station_speed process_time : Rat) (p : String) (hp : p ≠ "")
    (t1 t2 t3 : Rat) :
    (stationRoundTrip x station_speed process_time p t1 t2 t3).log.map
        (fun l => (l.activity, l.part_id)) =
      [("ENTER", some p), ("PROCESS_START", some p),
       ("PROCESS_END", some p), ("EXIT", some p)] ∧
    (stationRoundTrip x station_speed process_time p t1 t2 t3).state =
      StationState.IDLE ∧
    (stationRoundTrip x station_speed process_time p t1 t2 t3).current_part =
      none := by
  have hPE1 : "S" ++ toString (1 : Nat) ++ "_PROCESS" ≠
      "S" ++ toString (1 : Nat) ++ "_ENTRY" :=
    of_decide_eq_false (by with_unfolding_all rfl)
  have hPE2 : "S" ++ toString (2 : Nat) ++ "_PROCESS" ≠
      "S" ++ toString (2 : Nat) ++ "_ENTRY" :=
    of_decide_eq_false (by with_unfolding_all rfl)
  simp only [List.mem_cons, List.not_mem_nil, or_false] at hx
  rcases hx with rfl | rfl
  · simp [stationRoundTrip, station_process_event, mkStation,
      station_handle_idle, station_handle_entering,
      station_handle_processing, station_processing_complete,
      station_handle_advancing_to_exit, station_handle_exiting,
      station_exit_complete, st_set_speed, st_stop, log_event,
      Station.station_id, Station.motor_num, hp, hPE1]
  · simp [stationRoundTrip, station_process_event, mkStation,
      station_handle_idle, station_handle_entering,
      station_handle_processing, station_processing_complete,
      station_handle_advancing_to_exit, station_handle_exiting,
      station_exit_complete, st_set_speed, st_stop, log_event,
      Station.station_id, Station.motor_num, hp, hPE2]

theorem C7_station_round_trip_witness :
    (stationRoundTrip 1 1 5 "AB" 0 1 2).state = StationState.IDLE :=
  (C7_station_round_trip 1 (by decide) 1 5 "AB"
    (of_decide_eq_false (by with_unfolding_all rfl)) 0 1 2).2.1

/-! ## CEP fuser (src/physical_system/cep_consumer.py)

The fusion and expiry passes are embedded with the same index
bookkeeping as the source (collect indices, then delete them in
reverse-sorted order).  `List.eraseIdx` is a no-op out of range where
Python's `del` raises; every index the passes collect is in range at
deletion time in the scenarios proved below. -/

/-- A GPIO/MCP sensor event dictionary (the fields the consumer reads). -/
structure SensorEvent where
  timestamp : Rat
  barrier_id : String
  location_type : String
  location_id : Nat
deriving DecidableEq

/-- An NFC event dictionary (the fields the consumer reads). -/
structure NfcEvent where
  timestamp : Rat
  station_id : Nat
  part_id : String
deriving DecidableEq

/-- `CEPConsumer._is_entry_barrier`. -/
def is_entry_barrier (barrier_id : String) : Bool :=
  (["S1_ENTRY", "S2_ENTRY"]).contains barrier_id

/-- `CEPConsumer._events_match` (its `current_time` parameter is unused
in the source): station events only, same station, time difference
within the fusion window. -/
def events_match (DELTA_T_FUSE : Rat) (gpio_event : SensorEvent)
    (nfc_event : NfcEvent) : Bool :=
  if gpio_event.location_type = "station" then
    if gpio_event.location_id ≠ nfc_event.station_id then false
    else if |gpio_event.timestamp - nfc_event.timestamp| > DELTA_T_FUSE then
      false
    else true
  else false

/-- The fused-event dictionary `CEPConsumer._deliver_event` builds: the
timestamp is the sensor event's timestamp. -/
def make_fused (sensor_event : SensorEvent) (part_id : Option String) :
    FusedEvent :=
  { timestamp := sensor_event.timestamp
    barrier_id := sensor_event.barrier_id
    part_id := part_id
    location_type := sensor_event.location_type
    location_id := sensor_event.location_id }

/-- The inner loop of `CEPConsumer._fuse_events`: first pending NFC
event (with its index) matching the given sensor event. -/
def find_nfc_match (DELTA_T_FUSE : Rat) (g : SensorEvent) :
    List NfcEvent → Nat → Option (Nat × NfcEvent)
  | [], _ => none
  | n :: rest, idx =>
      if events_match DELTA_T_FUSE g n then some (idx, n)
      else find_nfc_match DELTA_T_FUSE g rest (idx + 1)

/-- Result of the scan phase of `_fuse_events`: delivered events and the
index lists `gpio_to_remove` / `nfc_to_remove` (the latter may contain
duplicates, exactly as in the source). -/
structure FusePass where
  delivered : List FusedEvent
  gpio_to_remove : List Nat
  nfc_to_remove : List Nat
  fused_count : Nat

/-- The scan phase of `CEPConsumer._fuse_events`: non-entry barriers are
delivered immediately with no part id; entry barriers are delivered only
when a pending NFC event matches, always searched in the full pending
NFC list (matched NFC events are not skipped). -/
def fuse_scan (DELTA_T_FUSE : Rat) (nfc : List NfcEvent) :
    List SensorEvent → Nat → FusePass
  | [], _ => { delivered := [], gpio_to_remove := [], nfc_to_remove := [],
               fused_count := 0 }
  | g :: rest, idx =>
      if !is_entry_barrier g.barrier_id then
        let r := fuse_scan DELTA_T_FUSE nfc rest (idx + 1)
        { delivered := make_fused g none :: r.delivered
          gpio_to_remove := idx :: r.gpio_to_remove
          nfc_to_remove := r.nfc_to_remove
          fused_count := r.fused_count }
      else
        match find_nfc_match DELTA_T_FUSE g nfc 0 with
        | some (nidx, n) =>
            let r := fuse_scan DELTA_T_FUSE nfc rest (idx + 1)
            { delivered := make_fused g (some n.part_id) :: r.delivered
              gpio_to_remove := idx :: r.gpio_to_remove
              nfc_to_remove := nidx :: r.nfc_to_remove
              fused_count := r.fused_count + 1 }
        | none => fuse_scan DELTA_T_FUSE nfc rest (idx + 1)

/-- Insert into a descending-sorted list (Python `sorted(reverse=True)`
applied incrementally). -/
def insertDescend (n : Nat) : List Nat → List Nat
  | [] => [n]
  | m :: ms => if m ≤ n then n :: m :: ms else m :: insertDescend n ms

/-- Python `sorted(idxs, reverse=True)`. -/
def sortDescend (l : List Nat) : List Nat := l.foldr insertDescend []

/-- The removal loops: `for idx in sorted(idxs, reverse=True): del l[idx]`
(the index list is expected to be already descending here). -/
def delete_indices (l : List α) (idxs : List Nat) : List α :=
  idxs.foldl (fun acc i => acc.eraseIdx i) l

/-- The outcome of one `_fuse_events` call on the two pending lists. -/
structure FuseResult where
  delivered : List FusedEvent
  pending_gpio : List SensorEvent
  pending_nfc : List NfcEvent
  fused_count : Nat

/-- `CEPConsumer._fuse_events`: scan, then remove the collected indices
in reverse-sorted order from both pending lists. -/
def fuse_events (DELTA_T_FUSE : Rat) (pending_gpio : List SensorEvent)
    (pending_nfc : List NfcEvent) : FuseResult :=
  let r := fuse_scan DELTA_T_FUSE pending_nfc pending_gpio 0
  { delivered := r.delivered
    pending_gpio := delete_indices pending_gpio (sortDescend r.gpio_to_remove)
    pending_nfc := delete_indices pending_nfc (sortDescend r.nfc_to_remove)
    fused_count := r.fused_count }

lemma events_match_spec (DELTA_T_FUSE : Rat) (g : SensorEvent)
    (n : NfcEvent) (h : events_match DELTA_T_FUSE g n = true) :
    g.location_type = "station" ∧ n.station_id = g.location_id ∧
    |g.timestamp - n.timestamp| ≤ DELTA_T_FUSE := by
  unfold events_match at h
  split_ifs at h with h1 h2 h3
  · exact ⟨h1, (not_ne_iff.mp h2).symm, not_lt.mp h3⟩

lemma find_nfc_match_spec (DELTA_T_FUSE : Rat) (g : SensorEvent) :
    ∀ (l : List NfcEvent) (k nidx : Nat) (n : NfcEvent),
      find_nfc_match DELTA_T_FUSE g l k = some (nidx, n) →
      n ∈ l ∧ events_match DELTA_T_FUSE g n = true := by
  intro l
  induction l with
  | nil => intro k nidx n h; cases h
  | cons m rest ih =>
      intro k nidx n h
      unfold find_nfc_match at h
      split_ifs at h with hm
      · injection h with h
        injection h with h1 h2
        subst h2
        exact ⟨List.mem_cons_self m rest, hm⟩
      · have := ih (k + 1) nidx n h
        exact ⟨List.mem_cons_of_mem m this.1, this.2⟩

/-- The per-delivered-event property of claim C4, over the original
pending lists. -/
def deliveredOk (DELTA_T_FUSE : Rat) (gpio : List SensorEvent)
    (nfc : List NfcEvent) (e : FusedEvent) : Prop :=
  (e.part_id.isSome = true ↔
    (is_entry_barrier e.barrier_id = true ∧
     ∃ n ∈ nfc, n.station_id = e.location_id ∧
       |e.timestamp - n.timestamp| ≤ DELTA_T_FUSE ∧
       e.part_id = some n.part_id)) ∧
  (is_entry_barrier e.barrier_id = false → e.part_id = none) ∧
  ∃ g ∈ gpio, e.timestamp = g.timestamp ∧ e.barrier_id = g.barrier_id

lemma fuse_scan_delivered_spec (DELTA_T_FUSE : Rat) (nfc : List NfcEvent) :
    ∀ (gpio : List SensorEvent) (k : Nat),
      ∀ e ∈ (fuse_scan DELTA_T_FUSE nfc gpio k).delivered,
        deliveredOk DELTA_T_FUSE gpio nfc e := by
  intro gpio
  induction gpio with
  | nil => intro k e he; cases he
  | cons g rest ih =>
      intro k e he
      unfold fuse_scan at he
      rcases hent : is_entry_barrier g.barrier_id
      · rw [hent] at he
        simp only [Bool.not_false, if_true] at he
        rcases List.mem_cons.mp he with rfl | he2
        · refine ⟨?_, fun _ => rfl, g, List.mem_cons_self g rest, rfl, rfl⟩
          simp only [make_fused, Option.isSome_none]
          constructor
          · intro hfalse; cases hfalse
          · intro hc
            rw [hent] at hc
            cases hc.1
        · obtain ⟨hiff, hnone, g2, hg2, hts⟩ := ih (k + 1) e he2
          exact ⟨hiff, hnone, g2, List.mem_cons_of_mem g hg2, hts⟩
      · rw [hent] at he
        simp only [Bool.not_true, Bool.false_eq_true, if_false] at he
        rcases hfind : find_nfc_match DELTA_T_FUSE g nfc 0 with _ | ⟨nidx, n⟩ <;>
          rw [hfind] at he
        · obtain ⟨hiff, hnone, g2, hg2, hts⟩ := ih (k + 1) e he
          exact ⟨hiff, hnone, g2, List.mem_cons_of_mem g hg2, hts⟩
        · rcases List.mem_cons.mp he with rfl | he2
          · obtain ⟨hmem, hmatch⟩ :=
              find_nfc_match_spec DELTA_T_FUSE g nfc 0 nidx n hfind
            obtain ⟨_, hstation, hdiff⟩ :=
              events_match_spec DELTA_T_FUSE g n hmatch
            refine ⟨?_, ?_, g, List.mem_cons_self g rest, rfl, rfl⟩
            · constructor
              · intro _
                exact ⟨hent, n, hmem, hstation, hdiff, rfl⟩
              · intro _
                rfl
            · intro hc
              simp only [make_fused] at hc
              rw [hent] at hc
              cases hc
          · obtain ⟨hiff, hnone, g2, hg2, hts⟩ := ih (k + 1) e he2
            exact ⟨hiff, hnone, g2, List.mem_cons_of_mem g hg2, hts⟩

/-- Claim C4: every event `_fuse_events` delivers carries a part id iff
its barrier is an entry barrier and it was fused with a pending NFC
event of the same station within the fusion window; non-entry barriers
are delivered with no part id; and the delivered timestamp (and barrier
id) comes from the pending sensor event. -/
theorem C4_fused_event_part_id_and_timestamp (DELTA_T_FUSE : Rat)
    (gpio : List SensorEvent) (nfc : List NfcEvent) :
    ∀ e ∈ (fuse_events DELTA_T_FUSE gpio nfc).delivered,
      deliveredOk DELTA_T_FUSE gpio nfc e := by
  intro e he
  exact fuse_scan_delivered_spec DELTA_T_FUSE nfc gpio 0 e he

/-- Non-entry sensor event used to instantiate C4. -/
def g40 : SensorEvent :=
  { timestamp := 3, barrier_id := "C1_POS", location_type := "corner",
    location_id := 1 }

theorem C4_fused_event_part_id_and_timestamp_witness :
    deliveredOk 2 [g40] [] (make_fused g40 none) :=
  C4_fused_event_part_id_and_timestamp 2 [g40] [] (make_fused g40 none)
    (of_decide_eq_true (by with_unfolding_all rfl))

/-- Two S1 entry barriers and two pending NFC events for station 1; both
barriers match the first NFC event. -/
def g61 : SensorEvent :=
  { timestamp := 0, barrier_id := "S1_ENTRY", location_type := "station",
    location_id := 1 }

/-- Second entry barrier, 0.1 s after the first. -/
def g62 : SensorEvent :=
  { timestamp := 1/10, barrier_id := "S1_ENTRY", location_type := "station",
    location_id := 1 }

/-- First pending NFC event (tag AA). -/
def n61 : NfcEvent := { timestamp := 0, station_id := 1, part_id := "AA" }

/-- Second pending NFC event (tag BB), also within the window. -/
def n62 : NfcEvent := { timestamp := 1/20, station_id := 1, part_id := "BB" }

/-- Claim C6 violation, evaluated on the code: both entry barriers fuse
with the same NFC event (tag AA is consumed twice), and the duplicated
index in `nfc_to_remove` makes the removal loop delete the other pending
NFC event (tag BB) as well — BB is neither fused into any dispatched
event nor left pending to be ghost-logged, i.e. it is silently
dropped. -/
theorem C6_code_bug_nfc_double_fuse_and_silent_drop :
    (fuse_events 2 [g61, g62] [n61, n62]).delivered.map FusedEvent.part_id =
      [some "AA", some "AA"] ∧
    (fuse_events 2 [g61, g62] [n61, n62]).pending_nfc = [] ∧
    (fuse_events 2 [g61, g62] [n61, n62]).pending_gpio = [] ∧
    (fuse_events 2 [g61, g62] [n61, n62]).fused_count = 2 :=
  of_decide_eq_true (by with_unfolding_all rfl)

/-- Age check of `_expire_events`: strictly older than the expiry
timeout. -/
def is_expired (now DELTA_T_EXPIRY ts : Rat) : Bool :=
  now - ts > DELTA_T_EXPIRY

/-- The error record `_expire_events` logs for an orphaned barrier:
`ERROR_ORPHAN_<barrier_id>` with part id UNKNOWN at the event's
location string. -/
def orphan_log (e : SensorEvent) : LogEntry :=
  { part_id := some "UNKNOWN"
    station_id := e.location_type ++ toString e.location_id
    activity := "ERROR_ORPHAN_" ++ e.barrier_id
    tag := infer_tag ("ERROR_ORPHAN_" ++ e.barrier_id) }

/-- The error record `_expire_events` logs for a ghost NFC read:
`ERROR_GHOST_NFC` with the tag as part id. -/
def ghost_log (e : NfcEvent) : LogEntry :=
  { part_id := some e.part_id
    station_id := "S" ++ toString e.station_id
    activity := "ERROR_GHOST_NFC"
    tag := infer_tag "ERROR_GHOST_NFC" }

/-- One collection loop of `_expire_events`: indices of the expired
entries (ascending, as enumerated) and the log records written for them,
in order. -/
def expire_scan (p : α → Bool) (mk : α → LogEntry) :
    List α → Nat → List Nat × List LogEntry
  | [], _ => ([], [])
  | e :: rest, idx =>
      let r := expire_scan p mk rest (idx + 1)
      if p e then (idx :: r.1, mk e :: r.2) else r

/-- The outcome of one `_expire_events` call: the two pending lists, the
log records written, and the two statistics increments. -/
structure ExpireResult where
  pending_gpio : List SensorEvent
  pending_nfc : List NfcEvent
  logs : List LogEntry
  orphaned_inc : Nat
  ghost_inc : Nat

/-- `CEPConsumer._expire_events`: collect and log expired sensor events,
remove them, then do the same for NFC events. -/
def expire_events (now DELTA_T_EXPIRY : Rat) (pending_gpio : List SensorEvent)
    (pending_nfc : List NfcEvent) : ExpireResult :=
  let g := expire_scan (fun e => is_expired now DELTA_T_EXPIRY e.timestamp)
    orphan_log pending_gpio 0
  let n := expire_scan (fun e => is_expired now DELTA_T_EXPIRY e.timestamp)
    ghost_log pending_nfc 0
  { pending_gpio := delete_indices pending_gpio (sortDescend g.1)
    pending_nfc := delete_indices pending_nfc (sortDescend n.1)
    logs := g.2 ++ n.2
    orphaned_inc := g.1.length
    ghost_inc := n.1.length }

lemma expire_scan_shift (p : α → Bool) (mk : α → LogEntry) :
    ∀ (l : List α) (k : Nat),
      (expire_scan p mk l (k + 1)).1 =
        ((expire_scan p mk l k).1).map (· + 1) := by
  intro l
  induction l with
  | nil => intro k; rfl
  | cons a rest ih =>
      intro k
      unfold expire_scan
      rcases hp : p a <;> simp [hp, ih (k + 1)]

lemma insertDescend_map_succ (n : Nat) :
    ∀ (l : List Nat),
      insertDescend (n + 1) (l.map (· + 1)) =
        (insertDescend n l).map (· + 1) := by
  intro l
  induction l with
  | nil => rfl
  | cons m rest ih =>
      by_cases hmn : m ≤ n
      · simp only [List.map_cons, insertDescend, if_pos hmn,
          if_pos (show m + 1 ≤ n + 1 by omega)]
      · simp only [List.map_cons, insertDescend, if_neg hmn,
          if_neg (show ¬(m + 1 ≤ n + 1) by omega), ih]

lemma sortDescend_map_succ :
    ∀ (l : List Nat), sortDescend (l.map (· + 1)) =
      (sortDescend l).map (· + 1) := by
  intro l
  induction l with
  | nil => rfl
  | cons m rest ih =>
      simp only [List.map_cons, sortDescend, List.foldr_cons]
      rw [show List.foldr insertDescend [] (rest.map (· + 1)) =
        sortDescend (rest.map (· + 1)) from rfl, ih]
      exact insertDescend_map_succ m (sortDescend rest)

lemma insertDescend_zero_map_succ :
    ∀ (l : List Nat), insertDescend 0 (l.map (· + 1)) = l.map (· + 1) ++ [0] := by
  intro l
  induction l with
  | nil => rfl
  | cons m rest ih =>
      simp only [List.map_cons, insertDescend]
      rw [if_neg (by omega), ih]
      rfl

lemma delete_indices_map_succ :
    ∀ (idxs : List Nat) (a : α) (l : List α),
      delete_indices (a :: l) (idxs.map (· + 1)) = a :: delete_indices l idxs := by
  intro idxs
  induction idxs with
  | nil => intro a l; rfl
  | cons i rest ih =>
      intro a l
      simp only [List.map_cons, delete_indices, List.foldl_cons,
        List.eraseIdx_cons_succ]
      exact ih a (l.eraseIdx i)

lemma delete_indices_append (l : List α) (J K : List Nat) :
    delete_indices l (J ++ K) = delete_indices (delete_indices l J) K := by
  simp [delete_indices, List.foldl_append]

lemma expire_removal_filter (p : α → Bool) (mk : α → LogEntry) :
    ∀ (l : List α),
      delete_indices l (sortDescend (expire_scan p mk l 0).1) =
        l.filter (fun a => !p a) := by
  intro l
  induction l with
  | nil => rfl
  | cons a rest ih =>
      rcases hp : p a <;>
        simp only [expire_scan, hp, if_true, if_false, Bool.false_eq_true] <;>
        rw [expire_scan_shift p mk rest 0]
      · rw [show sortDescend (((expire_scan p mk rest 0).1).map (· + 1)) =
          ((sortDescend (expire_scan p mk rest 0).1).map (· + 1)) from
          sortDescend_map_succ _]
        rw [delete_indices_map_succ, ih]
        simp [hp]
      · simp only [sortDescend, List.foldr_cons]
        rw [show List.foldr insertDescend []
            (((expire_scan p mk rest 0).1).map (· + 1)) =
          sortDescend (((expire_scan p mk rest 0).1).map (· + 1)) from rfl]
        rw [sortDescend_map_succ, insertDescend_zero_map_succ,
          delete_indices_append, delete_indices_map_succ, ih]
        simp [hp, delete_indices]

lemma expire_scan_logs (p : α → Bool) (mk : α → LogEntry) :
    ∀ (l : List α) (k : Nat),
      (expire_scan p mk l k).2 = (l.filter p).map mk := by
  intro l
  induction l with
  | nil => intro k; rfl
  | cons a rest ih =>
      intro k
      unfold expire_scan
      rcases hp : p a <;> simp [hp, ih (k + 1)]

lemma expire_scan_count (p : α → Bool) (mk : α → LogEntry) :
    ∀ (l : List α) (k : Nat),
      (expire_scan p mk l k).1.length = (l.filter p).length := by
  intro l
  induction l with
  | nil => intro k; rfl
  | cons a rest ih =>
      intro k
      unfold expire_scan
      rcases hp : p a <;> simp [hp, ih (k + 1)]

/-- Claim C5: after `_expire_events`, the pending lists hold exactly the
events not older than the expiry timeout (so nothing expired remains);
each expired barrier is logged exactly once as
`ERROR_ORPHAN_<barrier_id>` with part id UNKNOWN and each expired NFC
event exactly once as `ERROR_GHOST_NFC` with its tag as part id (in
pending order, barriers first); and the two statistics counters are
incremented by exactly the number of expired events of each kind. -/
theorem C5_expiry_pass (now DELTA_T_EXPIRY : Rat)
    (gpio : List SensorEvent) (nfc : List NfcEvent) :
    (expire_events now DELTA_T_EXPIRY gpio nfc).pending_gpio =
      gpio.filter (fun e => !is_expired now DELTA_T_EXPIRY e.timestamp) ∧
    (expire_events now DELTA_T_EXPIRY gpio nfc).pending_nfc =
      nfc.filter (fun e => !is_expired now DELTA_T_EXPIRY e.timestamp) ∧
    (∀ e ∈ (expire_events now DELTA_T_EXPIRY gpio nfc).pending_gpio,
      ¬(now - e.timestamp > DELTA_T_EXPIRY)) ∧
    (∀ e ∈ (expire_events now DELTA_T_EXPIRY gpio nfc).pending_nfc,
      ¬(now - e.timestamp > DELTA_T_EXPIRY)) ∧
    (expire_events now DELTA_T_EXPIRY gpio nfc).logs =
      (gpio.filter (fun e => is_expired now DELTA_T_EXPIRY e.timestamp)).map
        orphan_log ++
      (nfc.filter (fun e => is_expired now DELTA_T_EXPIRY e.timestamp)).map
        ghost_log ∧
    (expire_events now DELTA_T_EXPIRY gpio nfc).orphaned_inc =
      (gpio.filter (fun e => is_expired now DELTA_T_EXPIRY e.timestamp)).length ∧
    (expire_events now DELTA_T_EXPIRY gpio nfc).ghost_inc =
      (nfc.filter (fun e => is_expired now DELTA_T_EXPIRY e.timestamp)).length := by
  have hg := expire_removal_filter
    (fun e : SensorEvent => is_expired now DELTA_T_EXPIRY e.timestamp)
    orphan_log gpio
  have hn := expire_removal_filter
    (fun e : NfcEvent => is_expired now DELTA_T_EXPIRY e.timestamp)
    ghost_log nfc
  refine ⟨hg, hn, ?_, ?_, ?_, ?_, ?_⟩
  · intro e he
    rw [show (expire_events now DELTA_T_EXPIRY gpio nfc).pending_gpio =
      gpio.filter (fun e => !is_expired now DELTA_T_EXPIRY e.timestamp)
      from hg] at he
    have := List.of_mem_filter he
    simpa [is_expired] using this
  · intro e he
    rw [show (expire_events now DELTA_T_EXPIRY gpio nfc).pending_nfc =
      nfc.filter (fun e => !is_expired now DELTA_T_EXPIRY e.timestamp)
      from hn] at he
    have := List.of_mem_filter he
    simpa [is_expired] using this
  · show (expire_scan _ orphan_log gpio 0).2 ++
      (expire_scan _ ghost_log nfc 0).2 = _
    rw [expire_scan_logs, expire_scan_logs]
  · exact expire_scan_count _ orphan_log gpio 0
  · exact expire_scan_count _ ghost_log nfc 0

/-- Fresh and stale sensor events used to instantiate C5. -/
def g50 : SensorEvent :=
  { timestamp := 1, barrier_id := "S1_EXIT", location_type := "station",
    location_id := 1 }

/-- A fresh sensor event (age below the expiry timeout). -/
def g51 : SensorEvent :=
  { timestamp := 9, barrier_id := "S1_ENTRY", location_type := "station",
    location_id := 1 }

/-- A stale NFC event. -/
def n50 : NfcEvent := { timestamp := 2, station_id := 2, part_id := "CD" }

theorem C5_expiry_pass_witness :
    (expire_events 10 5 [g50, g51] [n50]).pending_gpio =
      [g50, g51].filter (fun e => !is_expired 10 5 e.timestamp) :=
  (C5_expiry_pass 10 5 [g50, g51] [n50]).1

/-! ## Data logger real-time metrics (src/physical_system/data_logger.py) -/

/-- The mutable metric state `_update_realtime_metrics` works on (the
dictionaries become maps, the two station/corner state dictionaries are
split into their `busy_since` / `total_busy_time` fields). -/
structure DataLoggerState where
  event_timestamps : List (Rat × String × String)
  station_entry_times : String → Option Rat
  current_wip : Int
  max_wip : Int
  cycle_times_s1 : List Rat
  cycle_times_s2 : List Rat
  station_busy_since : String → Option Rat
  station_total_busy : String → Rat
  corner_busy_since : String → Option Rat
  corner_total_busy : String → Rat

/-- The metric state right after `DataLogger.__init__`. -/
def DataLoggerState.init : DataLoggerState :=
  { event_timestamps := []
    station_entry_times := fun _ => none
    current_wip := 0
    max_wip := 0
    cycle_times_s1 := []
    cycle_times_s2 := []
    station_busy_since := fun _ => none
    station_total_busy := fun _ => 0
    corner_busy_since := fun _ => none
    corner_total_busy := fun _ => 0 }

/-- `DataLogger._update_realtime_metrics`: append to the rolling event
window, then update WIP / entry times / cycle times / busy tracking for
S1, S2 and push busy tracking for C1..C4.  Note the asymmetry: every
ENTER at S1 or S2 increments `current_wip`, but only an EXIT at S2
decrements it (clamped at 0). -/
def update_realtime_metrics (st : DataLoggerState) (part_id : String)
    (station_id : String) (activity : String) (current_time : Rat) :
    DataLoggerState :=
  let cutoff := current_time - 3600
  let st := { st with event_timestamps :=
      ((st.event_timestamps ++ [(current_time, station_id, activity)]).filter
        (fun e => e.1 > cutoff)) }
  if station_id = "S1" ∨ station_id = "S2" then
    if activity = "ENTER" then
      let key := part_id ++ "_" ++ station_id
      let st := { st with station_entry_times :=
          fun k => if k = key then some current_time
                   else st.station_entry_times k }
      let st := { st with current_wip := st.current_wip + 1 }
      let st := { st with max_wip := max st.max_wip st.current_wip }
      if st.station_busy_since station_id = none then
        { st with station_busy_since :=
            fun k => if k = station_id then some current_time
                     else st.station_busy_since k }
      else st
    else if activity = "EXIT" then
      let key := part_id ++ "_" ++ station_id
      let st :=
        match hk : st.station_entry_times key with
        | some entry_t =>
            let cycle_time := current_time - entry_t
            let st :=
              if station_id = "S1" then
                let l := st.cycle_times_s1 ++ [cycle_time]
                { st with cycle_times_s1 :=
                    if l.length > 100 then l.tail else l }
              else if station_id = "S2" then
                let l := st.cycle_times_s2 ++ [cycle_time]
                { st with cycle_times_s2 :=
                    if l.length > 100 then l.tail else l }
              else st
            { st with station_entry_times :=
                fun k => if k = key then none else st.station_entry_times k }
        | none => st
      let st :=
        if station_id = "S2" then
          { st with current_wip := max 0 (st.current_wip - 1) }
        else st
      match hb : st.station_busy_since station_id with
      | some busy_since =>
          let st := { st with station_total_busy :=
              fun k => if k = station_id then
                  st.station_total_busy k + (current_time - busy_since)
                else st.station_total_busy k }
          { st with station_busy_since :=
              fun k => if k = station_id then none
                       else st.station_busy_since k }
      | none => st
    else st
  else if station_id = "C1" ∨ station_id = "C2" ∨ station_id = "C3" ∨
      station_id = "C4" then
    if activity = "PUSH_START" then
      if st.corner_busy_since station_id = none then
        { st with corner_busy_since :=
            fun k => if k = station_id then some current_time
                     else st.corner_busy_since k }
      else st
    else if activity = "PUSH_COMPLETE" then
      match hb : st.corner_busy_since station_id with
      | some busy_since =>
          let st := { st with corner_total_busy :=
              fun k => if k = station_id then
                  st.corner_total_busy k + (current_time - busy_since)
                else st.corner_total_busy k }
          { st with corner_busy_since :=
              fun k => if k = station_id then none
                       else st.corner_busy_since k }
      | none => st
    else st
  else st

/-- Fold a list of `(part_id, station_id, activity, time)` records
through the metric update, from the initial state. -/
def run_logger (evs : List (String × String × String × Rat)) :
    DataLoggerState :=
  evs.foldl (fun st ev =>
    update_realtime_metrics st ev.1 ev.2.1 ev.2.2.1 ev.2.2.2)
    DataLoggerState.init

lemma update_wip_eq (st : DataLoggerState) (part_id station_id activity :
    String) (current_time : Rat) :
    (update_realtime_metrics st part_id station_id activity
        current_time).current_wip =
      (if station_id = "S1" ∨ station_id = "S2" then
        if activity = "ENTER" then st.current_wip + 1
        else if activity = "EXIT" then
          if station_id = "S2" then max 0 (st.current_wip - 1)
          else st.current_wip
        else st.current_wip
      else st.current_wip) := by
  unfold update_realtime_metrics
  dsimp only
  by_cases h1 : station_id = "S1" ∨ station_id = "S2"
  · simp only [if_pos h1]
    by_cases h2 : activity = "ENTER"
    · simp only [if_pos h2]
      split <;> rfl
    · simp only [if_neg h2]
      by_cases h3 : activity = "EXIT"
      · simp only [if_pos h3]
        by_cases h4 : station_id = "S2"
        · simp only [if_pos h4]
          first | rfl | ((repeat' split) <;> rfl)
        · simp only [if_neg h4]
          first | rfl | ((repeat' split) <;> rfl)
      · simp only [if_neg h3] <;> rfl
  · simp only [if_neg h1] <;> ((repeat' split) <;> rfl)

lemma update_wip_nonneg (st : DataLoggerState) (part_id station_id activity :
    String) (current_time : Rat) (h : 0 ≤ st.current_wip) :
    0 ≤ (update_realtime_metrics st part_id station_id activity
      current_time).current_wip := by
  rw [update_wip_eq]
  split_ifs <;> omega

lemma run_logger_wip_nonneg (evs : List (String × String × String × Rat)) :
    0 ≤ (run_logger evs).current_wip := by
  have hgen : ∀ (l : List (String × String × String × Rat))
      (st : DataLoggerState), 0 ≤ st.current_wip →
      0 ≤ (l.foldl (fun st ev =>
        update_realtime_metrics st ev.1 ev.2.1 ev.2.2.1 ev.2.2.2)
        st).current_wip := by
    intro l
    induction l with
    | nil => intro st h; exact h
    | cons ev rest ih =>
        intro st h
        exact ih _ (update_wip_nonneg st ev.1 ev.2.1 ev.2.2.1 ev.2.2.2 h)
  exact hgen evs DataLoggerState.init le_rfl

/-- Claim C10: the data logger's `current_wip` increases by one on every
ENTER logged at S1 or S2, is decremented (clamped at 0) only on an EXIT
at S2, is unchanged by an EXIT at S1 and by every other event, and never
goes negative over any event sequence from the initial state. -/
theorem C10_wip_asymmetric_accounting :
    (∀ (st : DataLoggerState) (part_id station_id activity : String)
        (current_time : Rat),
      (update_realtime_metrics st part_id station_id activity
          current_time).current_wip =
        (if station_id = "S1" ∨ station_id = "S2" then
          if activity = "ENTER" then st.current_wip + 1
          else if activity = "EXIT" then
            if station_id = "S2" then max 0 (st.current_wip - 1)
            else st.current_wip
          else st.current_wip
        else st.current_wip)) ∧
    (∀ evs : List (String × String × String × Rat),
      0 ≤ (run_logger evs).current_wip) :=
  ⟨update_wip_eq, run_logger_wip_nonneg⟩
